import Mathlib

/-!
Verification of the kaia-agent-analytics job against its specification.

The program (TypeScript) pulls time-series metrics from Dune Analytics,
asks the Gemini model to analyse each series, and posts a digest to Slack.
This file gives a shallow embedding of the relevant parts:

* a UTC calendar-date model (epoch days, civil conversions, and the
  ECMAScript `setUTCDate` / `setUTCMonth` normalisation semantics),
* `formatHistoricalPeriodDescription` from `src/index.ts`,
* the significance-tier rule stated in the analysis prompt,
* `parseGeminiResponse` together with a model of `JSON.parse`,
* the Slack block assembly of `slackService.ts`,
* the per-metric pipeline (`processMetric`, `main`) with the
  `asyncErrorHandler` wrapper and the startup cron dispatch.
-/

namespace KaiaAnalytics

/-! ### UTC date model

JavaScript `Date` objects hold an epoch timestamp; all accesses in the
program use the `getUTC*` / `setUTC*` family at UTC midnight.  We model a
date as its number of days since 1970-01-01 (an `Int`).  Conversions
between epoch days and the civil calendar follow the standard
era/year-of-era decomposition of the proleptic Gregorian calendar, which
is what ECMAScript prescribes.
-/

/-- Civil (year, month 1-12, day 1-31) from days since 1970-01-01. -/
def civilFromDays (z0 : Int) : Int × Int × Int :=
  let z := z0 + 719468
  let era := z.fdiv 146097
  let doe := z - era * 146097
  let yoe := (doe - doe.fdiv 1460 + doe.fdiv 36524 - doe.fdiv 146096).fdiv 365
  let y := yoe + era * 400
  let doy := doe - (365 * yoe + yoe.fdiv 4 - yoe.fdiv 100)
  let mp := (5 * doy + 2).fdiv 153
  let d := doy - (153 * mp + 2).fdiv 5 + 1
  let m := if mp < 10 then mp + 3 else mp - 9
  (if m ≤ 2 then y + 1 else y, m, d)

/-- Days since 1970-01-01 from a civil date (month 1-12; the day may lie
outside 1-31, shifting the result linearly, as in ECMAScript `MakeDay`). -/
def daysFromCivil (y0 m d : Int) : Int :=
  let y := y0 - (if m ≤ 2 then 1 else 0)
  let era := y.fdiv 400
  let yoe := y - era * 400
  let mp := if 2 < m then m - 3 else m + 9
  let doy := (153 * mp + 2).fdiv 5 + d - 1
  let doe := yoe * 365 + yoe.fdiv 4 - yoe.fdiv 100 + doy
  era * 146097 + doe - 719468

/-- `Date.prototype.getUTCFullYear`. -/
def getUTCFullYear (z : Int) : Int := (civilFromDays z).1

/-- `Date.prototype.getUTCMonth` (0-based, as in JavaScript). -/
def getUTCMonth (z : Int) : Int := (civilFromDays z).2.1 - 1

/-- `Date.prototype.getUTCDate` (day of month, 1-31). -/
def getUTCDate (z : Int) : Int := (civilFromDays z).2.2

/-- `Date.prototype.getUTCDay` (0 = Sunday … 6 = Saturday); 1970-01-01 was
a Thursday (4). -/
def getUTCDay (z : Int) : Int := (z + 4).fmod 7

/-- `Date.prototype.setUTCDate n`: keep the year and month, set the day of
month to `n` and renormalise.  Since the first of the current month is
`z - (getUTCDate z - 1)`, the result is exactly `z + n - getUTCDate z`. -/
def setUTCDate (z n : Int) : Int := z + n - getUTCDate z

/-- ECMAScript `MakeDay y m dt` (0-based month, arbitrary integers,
normalising month overflow into the year). -/
def makeDay (y m dt : Int) : Int :=
  daysFromCivil (y + m.fdiv 12) (m.fmod 12 + 1) 1 + (dt - 1)

/-- `Date.prototype.setUTCMonth m` followed by day `dt` (used here only in
the combined `setUTCMonth(m, dt)` form of the source). -/
def setUTCMonth (z m dt : Int) : Int := makeDay (getUTCFullYear z) m dt

/-- `Date.UTC(y, m, 1)` at UTC midnight, as epoch days. -/
def dateUTC (y m dt : Int) : Int := makeDay y m dt

/-- Decimal rendering padded to two characters, as
`String.prototype.padStart(2, "0")` on a decimal numeral. -/
def pad2 (n : Int) : String :=
  let s := toString n
  if s.length < 2 then "0" ++ s else s

/-- The helper `formatDate` of `formatHistoricalPeriodDescription`:
`YYYY-MM-DD` with the month and day zero-padded. -/
def formatDate (z : Int) : String :=
  let c := civilFromDays z
  toString c.1 ++ "-" ++ pad2 c.2.1 ++ "-" ++ pad2 c.2.2

/-- Month names as produced by
`toLocaleString("default", { month: "long", timeZone: "UTC" })`
(0-based index, matching `getUTCMonth`). -/
def monthNameOfIndex (m : Int) : String :=
  if m = 0 then "January" else if m = 1 then "February"
  else if m = 2 then "March" else if m = 3 then "April"
  else if m = 4 then "May" else if m = 5 then "June"
  else if m = 6 then "July" else if m = 7 then "August"
  else if m = 8 then "September" else if m = 9 then "October"
  else if m = 10 then "November" else if m = 11 then "December" else ""

/-- The helper `getMonthName` of `formatHistoricalPeriodDescription`. -/
def getMonthName (z : Int) : String := monthNameOfIndex (getUTCMonth z)

/-! ### The `HistoricalPeriod` data model (`src/types/metric.ts`) -/

/-- The units of a `relativeRange` period. -/
inductive RangeUnit where
  | day | week | month | year
deriving DecidableEq, Repr

/-- The named periods of a `relativeSpecific` period. -/
inductive NamedPeriod where
  | yesterday | today | thisWeek | lastWeek
  | thisMonth | lastMonth | thisYear | lastYear
deriving DecidableEq, Repr

/-- The `HistoricalPeriod` tagged union.  `specificMonth` carries a 0-based
month, as documented in the source (`month 0-11`). -/
inductive HistoricalPeriod where
  | relativeRange (count : Int) (unit : RangeUnit)
  | relativeSpecific (period : NamedPeriod)
  | specificMonth (year month : Int)
  | specificYear (year : Int)
  | specificDate (date : String)
deriving DecidableEq, Repr

/-- Number of days of month `m` (1-12) of year `y`, proleptic Gregorian. -/
def daysInMonth (y m : Int) : Int :=
  if m = 2 then
    if y.fmod 4 = 0 ∧ (y.fmod 100 ≠ 0 ∨ y.fmod 400 = 0) then 29 else 28
  else if m = 4 ∨ m = 6 ∨ m = 9 ∨ m = 11 then 30
  else 31

/-- Decimal digit test. -/
def isDigitChar (c : Char) : Bool := '0' ≤ c ∧ c ≤ '9'

/-- Value of a decimal digit. -/
def digitVal (c : Char) : Int := Int.ofNat c.toNat - 48

/-- Model of `new Date(s + "T00:00:00Z")` on a date-only string: the
ECMAScript date-time string format accepts exactly `YYYY-MM-DD` with
in-range month and day; anything else yields an invalid date (`NaN`
timestamp), which we model as `none`. -/
def parseDateString (s : String) : Option Int :=
  match s.data with
  | [y1, y2, y3, y4, h1, m1, m2, h2, d1, d2] =>
    if h1 = '-' ∧ h2 = '-' ∧
       isDigitChar y1 ∧ isDigitChar y2 ∧ isDigitChar y3 ∧ isDigitChar y4 ∧
       isDigitChar m1 ∧ isDigitChar m2 ∧ isDigitChar d1 ∧ isDigitChar d2 then
      let y := 1000 * digitVal y1 + 100 * digitVal y2 + 10 * digitVal y3 + digitVal y4
      let m := 10 * digitVal m1 + digitVal m2
      let d := 10 * digitVal d1 + digitVal d2
      if 1 ≤ m ∧ m ≤ 12 ∧ 1 ≤ d ∧ d ≤ daysInMonth y m then
        some (daysFromCivil y m d)
      else none
    else none
  | _ => none

/-- `formatHistoricalPeriodDescription` from `src/index.ts`, with the
reference date `today` (UTC midnight, epoch days) made explicit.  Each
branch mirrors the source; `specificDate` models the fact that comparisons
against an invalid date (`NaN`) are false. -/
def formatHistoricalPeriodDescription (today : Int) (period : HistoricalPeriod) : String :=
  match period with
  | .relativeRange count unit =>
    if count ≤ 0 then "Invalid range" else
    match unit with
    | .day =>
      let endDate := setUTCDate today (getUTCDate today - 1)
      let startDate := setUTCDate today (getUTCDate today - count)
      "for dates " ++ formatDate startDate ++ " to " ++ formatDate endDate
    | .week =>
      let endDate := setUTCDate today (getUTCDate today - getUTCDay today - 1)
      let startDate1 := setUTCDate today (getUTCDate endDate - (count - 1) * 7)
      let startDate := setUTCDate startDate1 (getUTCDate startDate1 - getUTCDay startDate1)
      "for dates " ++ formatDate startDate ++ " to " ++ formatDate endDate
    | .month =>
      let endDate := setUTCDate today 0
      let startDate := setUTCMonth today (getUTCMonth today - count) 1
      if count = 1 then "for month " ++ getMonthName endDate
      else "for months " ++ getMonthName startDate ++ " to " ++ getMonthName endDate
    | .year =>
      let endYear := getUTCFullYear today - 1
      let startYear := getUTCFullYear today - count
      if count = 1 then "for year " ++ toString endYear
      else "for years " ++ toString startYear ++ " to " ++ toString endYear
  | .relativeSpecific p =>
    match p with
    | .today => "for date " ++ formatDate today
    | .yesterday => "for date " ++ formatDate (setUTCDate today (getUTCDate today - 1))
    | .thisWeek =>
      "for week starting " ++ formatDate (setUTCDate today (getUTCDate today - getUTCDay today))
    | .lastWeek =>
      let endOfLastWeek := setUTCDate today (getUTCDate today - getUTCDay today - 1)
      let startOfLastWeek := setUTCDate endOfLastWeek (getUTCDate endOfLastWeek - 6)
      "for week " ++ formatDate startOfLastWeek ++ " to " ++ formatDate endOfLastWeek
    | .thisMonth =>
      let startOfMonth := setUTCDate today 1
      "for month " ++ getMonthName startOfMonth ++ " " ++ toString (getUTCFullYear startOfMonth)
    | .lastMonth =>
      let lastMonthDate := setUTCDate today 0
      "for month " ++ getMonthName lastMonthDate ++ " " ++ toString (getUTCFullYear lastMonthDate)
    | .thisYear => "for year " ++ toString (getUTCFullYear today)
    | .lastYear => "for year " ++ toString (getUTCFullYear today - 1)
  | .specificMonth year month =>
    "for month " ++ getMonthName (dateUTC year month 1) ++ " " ++ toString year
  | .specificYear year => "for year " ++ toString year
  | .specificDate dateStr =>
    match parseDateString dateStr with
    | some d =>
      let yesterday := setUTCDate today (getUTCDate today - 1)
      if d = today then "for date " ++ formatDate today ++ " (today)"
      else if d = yesterday then "for date " ++ formatDate yesterday ++ " (yesterday)"
      else "from " ++ dateStr
    | none => "from " ++ dateStr

/-! ### Significance tiers

The analysis prompt built by `createAnalysisPrompt` instructs the model to
classify each change (`src/index.ts`, the step-7 criteria):
LOW when `abs(recent_absolute_change) <= 0.5 * historical_average`,
MEDIUM up to `1x`, HIGH up to `2x`, CRITICAL above `2x`.
-/

/-- The LOW/MEDIUM/HIGH/CRITICAL ordinal classification. -/
inductive Significance where
  | LOW | MEDIUM | HIGH | CRITICAL
deriving DecidableEq, Repr

/-- Position of a tier in the order LOW < MEDIUM < HIGH < CRITICAL. -/
def Significance.rank : Significance → Nat
  | .LOW => 0
  | .MEDIUM => 1
  | .HIGH => 2
  | .CRITICAL => 3

/-- The significance rule of the prompt, transcribed criterion by
criterion (`0.5 * historical_average` written as `1/2 * _`). -/
def significanceLevel (recentAbsoluteChange historicalAverage : ℚ) : Significance :=
  if |recentAbsoluteChange| ≤ 1/2 * historicalAverage then .LOW
  else if |recentAbsoluteChange| ≤ historicalAverage then .MEDIUM
  else if |recentAbsoluteChange| ≤ 2 * historicalAverage then .HIGH
  else .CRITICAL

/-! ### JSON values and a model of `JSON.parse`

`parseGeminiResponse` feeds the cleaned model output to `JSON.parse`.  We
model JSON texts by a recursive-descent parser over the character list,
with numbers as exact rationals.  `JSON.parse` ignores whitespace around
the top-level value, so the model trims first and then requires the
parser to consume the whole rest.
-/

/-- The JSON (and ASCII JavaScript) whitespace characters. -/
def jsWhitespace (c : Char) : Bool :=
  c = ' ' || c = '\t' || c = '\n' || c = '\r'

/-- Remove leading and trailing whitespace, as `String.prototype.trim`. -/
def trimChars (l : List Char) : List Char :=
  ((l.dropWhile jsWhitespace).reverse.dropWhile jsWhitespace).reverse

/-- A JSON numeric literal, kept exactly as the scaled decimal
`mantissa * 10 ^ exponent10`.  (ECMAScript converts the literal to a
double; none of the verified properties depend on floating-point
rounding, so the exact value of the literal is the faithful abstraction.) -/
structure JsonNumber where
  mantissa : Int
  exponent10 : Int
deriving DecidableEq, Repr

/-- JSON values.  Object members are kept in textual order. -/
inductive JsonValue where
  | null
  | bool (b : Bool)
  | num (n : JsonNumber)
  | str (s : String)
  | arr (elems : List JsonValue)
  | obj (members : List (String × JsonValue))

/-- The backtick character (0x60). -/
def btick : Char := Char.ofNat 96

/-- The left curly bracket character (0x7b). -/
def lbrace : Char := Char.ofNat 123

/-- The right curly bracket character (0x7d). -/
def rbrace : Char := Char.ofNat 125

def skipWs (l : List Char) : List Char := l.dropWhile jsWhitespace

/-- Hexadecimal digit value, for `\uXXXX` escapes. -/
def hexVal (c : Char) : Option Nat :=
  if isDigitChar c then some (c.toNat - 48)
  else if 'a' ≤ c ∧ c ≤ 'f' then some (c.toNat - 87)
  else if 'A' ≤ c ∧ c ≤ 'F' then some (c.toNat - 55)
  else none

/-- Single-character JSON escapes. -/
def escChar (c : Char) : Option Char :=
  if c = '"' ∨ c = '\\' ∨ c = '/' then some c
  else if c = 'b' then some (Char.ofNat 8)
  else if c = 'f' then some (Char.ofNat 12)
  else if c = 'n' then some '\n'
  else if c = 'r' then some '\r'
  else if c = 't' then some '\t'
  else none

/-- Parse the body of a JSON string after the opening quote, returning the
decoded characters and the rest after the closing quote. -/
def parseStringBody : List Char → Option (List Char × List Char)
  | [] => none
  | c :: rest =>
    if c = '"' then some ([], rest)
    else if c = '\\' then
      match rest with
      | [] => none
      | e :: rest2 =>
        if e = 'u' then
          match rest2 with
          | a :: b :: c2 :: d :: rest3 =>
            match hexVal a, hexVal b, hexVal c2, hexVal d with
            | some ha, some hb, some hc, some hd =>
              match parseStringBody rest3 with
              | some (body, rem) =>
                some (Char.ofNat (4096 * ha + 256 * hb + 16 * hc + hd) :: body, rem)
              | none => none
            | _, _, _, _ => none
          | _ => none
        else
          match escChar e with
          | some ec =>
            match parseStringBody rest2 with
            | some (body, rem) => some (ec :: body, rem)
            | none => none
          | none => none
    else if c.toNat < 32 then none
    else
      match parseStringBody rest with
      | some (body, rem) => some (c :: body, rem)
      | none => none

/-- Numeric value of a digit list. -/
def digitsToNat (ds : List Char) : Nat :=
  ds.foldl (fun a c => 10 * a + (c.toNat - 48)) 0

/-- Parse a JSON number (`-? int frac? exp?`, no leading zeros) as the
exact scaled decimal it denotes, together with the remaining input. -/
def parseNumber (l : List Char) : Option (JsonNumber × List Char) :=
  let (neg, l1) :=
    match l with
    | c :: rest => if c = '-' then (true, rest) else (false, l)
    | [] => (false, l)
  match l1 with
  | [] => none
  | c :: tl =>
    if ¬ isDigitChar c then none
    else if c = '0' && (match tl with | d :: _ => isDigitChar d | [] => false) then none
    else
      let (ids, r1) := (l1.takeWhile isDigitChar, l1.dropWhile isDigitChar)
      let fracStep : Option (List Char × List Char) :=
        match r1 with
        | '.' :: r2 =>
          let (fds, r3) := (r2.takeWhile isDigitChar, r2.dropWhile isDigitChar)
          if fds = [] then none else some (fds, r3)
        | _ => some ([], r1)
      match fracStep with
      | none => none
      | some (fds, r3) =>
        let expStep : Option (Int × List Char) :=
          match r3 with
          | e :: r4 =>
            if e = 'e' ∨ e = 'E' then
              let (esign, r5) :=
                match r4 with
                | s :: r5a =>
                  if s = '+' then ((1 : Int), r5a)
                  else if s = '-' then ((-1 : Int), r5a)
                  else ((1 : Int), r4)
                | [] => ((1 : Int), r4)
              let (eds, r6) := (r5.takeWhile isDigitChar, r5.dropWhile isDigitChar)
              if eds = [] then none
              else some (esign * (digitsToNat eds : Int), r6)
            else some (0, r3)
          | [] => some (0, r3)
        match expStep with
        | none => none
        | some (e, r) =>
          let mant : Int := (digitsToNat (ids ++ fds) : Int)
          some (⟨if neg then -mant else mant, e - fds.length⟩, r)

mutual

/-- Parse one JSON value (leading whitespace allowed), fuel-bounded. -/
def parseValue : Nat → List Char → Option (JsonValue × List Char)
  | 0, _ => none
  | fuel + 1, l =>
    match skipWs l with
    | [] => none
    | c :: rest =>
      if c = 'n' then
        match rest with
        | 'u' :: 'l' :: 'l' :: r => some (.null, r)
        | _ => none
      else if c = 't' then
        match rest with
        | 'r' :: 'u' :: 'e' :: r => some (.bool true, r)
        | _ => none
      else if c = 'f' then
        match rest with
        | 'a' :: 'l' :: 's' :: 'e' :: r => some (.bool false, r)
        | _ => none
      else if c = '"' then
        match parseStringBody rest with
        | some (body, r) => some (.str (String.mk body), r)
        | none => none
      else if c = '[' then
        match skipWs rest with
        | ']' :: r => some (.arr [], r)
        | _ =>
          match parseElems fuel rest with
          | some (vs, r) => some (.arr vs, r)
          | none => none
      else if c = lbrace then
        match skipWs rest with
        | d :: r =>
          if d = rbrace then some (.obj [], r)
          else
            match parseMembers fuel rest with
            | some (kvs, r2) => some (.obj kvs, r2)
            | none => none
        | [] => none
      else if c = '-' ∨ isDigitChar c then
        match parseNumber (c :: rest) with
        | some (q, r) => some (.num q, r)
        | none => none
      else none

/-- Parse the comma-separated elements of a non-empty array, up to and
including the closing bracket. -/
def parseElems : Nat → List Char → Option (List JsonValue × List Char)
  | 0, _ => none
  | fuel + 1, l =>
    match parseValue fuel l with
    | none => none
    | some (v, r) =>
      match skipWs r with
      | ',' :: r2 =>
        match parseElems fuel r2 with
        | some (vs, r3) => some (v :: vs, r3)
        | none => none
      | ']' :: r2 => some ([v], r2)
      | _ => none

/-- Parse the members of a non-empty object, up to and including the
closing brace. -/
def parseMembers : Nat → List Char → Option (List (String × JsonValue) × List Char)
  | 0, _ => none
  | fuel + 1, l =>
    match skipWs l with
    | '"' :: r =>
      match parseStringBody r with
      | some (key, r2) =>
        match skipWs r2 with
        | ':' :: r3 =>
          match parseValue fuel r3 with
          | some (v, r4) =>
            match skipWs r4 with
            | ',' :: r5 =>
              match parseMembers fuel r5 with
              | some (kvs, r6) => some ((String.mk key, v) :: kvs, r6)
              | none => none
            | d :: r5 =>
              if d = rbrace then some ([(String.mk key, v)], r5) else none
            | [] => none
          | none => none
        | _ => none
      | none => none
    | _ => none

end

/-- Model of `JSON.parse`: trim the text (`JSON.parse` ignores whitespace
around the top-level value), parse one value, and require that nothing
but whitespace remains.  `none` models a thrown `SyntaxError`. -/
def jsonParse (s : String) : Option JsonValue :=
  let l := trimChars s.data
  match parseValue (2 * l.length + 2) l with
  | some (v, rest) => if skipWs rest = [] then some v else none
  | none => none

/-! ### The response parser (`parseGeminiResponse`, `src/index.ts`) -/

/-- The three backticks opening or closing a Markdown code fence. -/
def fenceTicks : List Char := [btick, btick, btick]

/-- The characters of the opening fence marker `` ```json ``. -/
def fenceOpenChars : List Char := fenceTicks ++ ['j', 's', 'o', 'n']

/-- Model of `.replace(/^```json\n?/, "")`: strip a leading `` ```json ``
marker together with one following newline if present. -/
def stripFenceOpen (l : List Char) : List Char :=
  if (fenceOpenChars ++ ['\n']).isPrefixOf l then l.drop 8
  else if fenceOpenChars.isPrefixOf l then l.drop 7
  else l

/-- Model of `.replace(/\n?```$/, "")`: strip a trailing `` ``` `` with
one preceding newline if present (the leftmost match of the anchored
pattern is the longer suffix when both fit). -/
def stripFenceClose (l : List Char) : List Char :=
  if ('\n' :: fenceTicks).isSuffixOf l then l.take (l.length - 4)
  else if fenceTicks.isSuffixOf l then l.take (l.length - 3)
  else l

/-- The cleaning pipeline of `parseGeminiResponse`: strip the fences, then
trim, on the character list. -/
def cleanChars (l : List Char) : List Char :=
  trimChars (stripFenceClose (stripFenceOpen l))

/-- The `cleanedResult` string computed by `parseGeminiResponse`. -/
def cleanGeminiText (s : String) : String := String.mk (cleanChars s.data)

/-- Result of `parseGeminiResponse`: either the parsed object, the
parse-failure error record `\x7b error, rawResult, cleanedResult \x7d`, or
the non-string error record `\x7b error, rawResult \x7d`. -/
inductive GeminiParseResult where
  | parsed (value : JsonValue)
  | parseFailure (error rawResult cleanedResult : String)
  | nonStringResult (error : String) (rawResult : Option String)

/-- `parseGeminiResponse` from `src/index.ts`.  The Gemini service's
declared result type is `string | null`; `null` (`none`) is the
non-string case of the `typeof` test. -/
def parseGeminiResponse (geminiResult : Option String) (metricName : String) :
    GeminiParseResult :=
  match geminiResult with
  | none =>
    .nonStringResult ("Received non-string result for metric " ++ metricName) none
  | some s =>
    let cleanedResult := cleanGeminiText s
    match jsonParse cleanedResult with
    | some v => .parsed v
    | none =>
      .parseFailure ("Failed to parse JSON for metric " ++ metricName) s cleanedResult

/-! ### Slack service (`src/services/slackService.ts`)

Blocks are modelled by their layout kind and the payload fields the
program computes; sending is modelled by the value handed to
`webhook.send` — `none` when the length guard suppresses the message, so
the sink is invoked at most once per run by construction.
-/

/-- The analysed-metric record consumed by the Slack service
(`src/types/slack.ts`, all presentation fields are strings). -/
structure MetricAnalysis where
  metricName : String
  sectionUrl : String
  frequency : String
  latestValue : String
  absoluteChange : String
  percentageChange : String
  historicalAverage : String
  fromHistoricalDate : String
  historicalTrend : String
  technicalAnalysis : String
  significance : String
deriving DecidableEq, Repr

/-- A Slack Block Kit block: layout kind plus the texts, fields and
button URL the program fills in. -/
inductive SlackBlock where
  | header (text : String)
  | divider
  | section (text : Option String) (fields : List String) (buttonUrl : Option String)
  | context (elements : List String)
deriving DecidableEq, Repr

/-- JavaScript `parseInt` on the strings at hand: skip whitespace, read an
optional sign and leading digits; `none` models `NaN`. -/
def jsParseInt (s : String) : Option Int :=
  let l := s.data.dropWhile jsWhitespace
  let (neg, l1) :=
    match l with
    | c :: r => if c = '-' then (true, r) else if c = '+' then (false, l.tail) else (false, l)
    | [] => (false, l)
  let ds := l1.takeWhile isDigitChar
  if ds = [] then none
  else some (if neg then -(digitsToNat ds : Int) else (digitsToNat ds : Int))

/-- `parseInt(pc) > 0 ? " 🟢" : " 🔴"` — `NaN > 0` is false. -/
def changeEmoji (pc : String) : String :=
  match jsParseInt pc with
  | some n => if 0 < n then " 🟢" else " 🔴"
  | none => " 🔴"

/-- The inline ternary decorating the significance value. -/
def significanceLabel (s : String) : String :=
  if s = "HIGH" then "HIGH ❗️" else if s = "MEDIUM" then "MEDIUM ⚠️" else "LOW"

/-- `createMetricsTable`: a header, one table-header section, a divider,
then a fields section and divider per metric. -/
def createMetricsTable (metricsData : List MetricAnalysis) : List SlackBlock :=
  [SlackBlock.header "Metrics Overview Table",
   SlackBlock.section none
     ["*Metric Name*", "*Latest Value*", "*Significance*", "*Change*"] none,
   SlackBlock.divider]
  ++ metricsData.flatMap (fun metric =>
    [SlackBlock.section none
       ["*" ++ metric.metricName ++ "*",
        metric.latestValue,
        significanceLabel metric.significance,
        metric.percentageChange ++ " (" ++ metric.absoluteChange ++ ")"
          ++ changeEmoji metric.percentageChange] none,
     SlackBlock.divider])

/-- `createMetricsGrid`: a header, then per metric a name/significance
section with a Dune button, a data section, optional trend and analysis
sections (JavaScript truthiness on the strings: present iff non-empty),
and a divider. -/
def createMetricsGrid (metricsData : List MetricAnalysis) : List SlackBlock :=
  [SlackBlock.header "Metrics Summary"]
  ++ metricsData.flatMap (fun metric =>
    [SlackBlock.section
       (some ("*" ++ metric.metricName ++ "*\n_Significance: "
         ++ significanceLabel metric.significance ++ "_")) [] (some metric.sectionUrl),
     SlackBlock.section
       (some ("*Latest:* " ++ metric.latestValue
         ++ "\n*Change (from last " ++ metric.frequency ++ "):* "
         ++ metric.percentageChange ++ " (" ++ metric.absoluteChange ++ ")"
         ++ changeEmoji metric.percentageChange
         ++ "\n*Historical Average (" ++ metric.fromHistoricalDate ++ "):* "
         ++ metric.historicalAverage)) [] none]
    ++ (if metric.historicalTrend ≠ "" then
        [SlackBlock.section (some ("*Historical Trend:* " ++ metric.historicalTrend)) [] none]
       else [])
    ++ (if metric.technicalAnalysis ≠ "" then
        [SlackBlock.section
          (some ("*Technical Analysis:* " ++ metric.technicalAnalysis)) [] none]
       else [])
    ++ [SlackBlock.divider])

/-- `sendGridFormattedSlackMessage` (the sink used by `main`): date
header, divider, table blocks, grid blocks; the payload is sent iff more
than two blocks were assembled, else nothing is sent (`none`). -/
def sendGridFormattedSlackMessage (nowText : String) (metricsData : List MetricAnalysis) :
    Option (List SlackBlock) :=
  let allBlocks :=
    [SlackBlock.header ("Date: " ++ nowText), SlackBlock.divider]
    ++ createMetricsTable metricsData ++ createMetricsGrid metricsData
  if 2 < allBlocks.length then some allBlocks else none

/-- The earlier `sendFormattedSlackMessage` variant: date header, divider,
then name/analysis/significance/divider blocks per metric, with the same
length guard. -/
def sendFormattedSlackMessage (nowText : String) (metricsData : List MetricAnalysis) :
    Option (List SlackBlock) :=
  let allBlocks :=
    [SlackBlock.header ("Date: " ++ nowText), SlackBlock.divider]
    ++ metricsData.flatMap (fun metric =>
      [SlackBlock.section (some ("*" ++ metric.metricName ++ "*")) [] (some metric.sectionUrl),
       SlackBlock.section (some metric.technicalAnalysis) [] none,
       SlackBlock.context ["*Significance:* " ++ metric.significance],
       SlackBlock.divider])
  if 2 < allBlocks.length then some allBlocks else none

/-! ### The per-metric pipeline and the Job Runner (`src/index.ts`)

External calls are modelled by an `ExternalWorld`: a thrown error is
`Except.error`, a resolved value is `Except.ok` (the Dune and Gemini
services resolve with `string | null`).
-/

/-- The metric configuration record (`src/types/metric.ts`). -/
structure Metric where
  name : String
  queryId : Nat
  sectionUrl : String
  frequency : String
  fromHistoricalDate : HistoricalPeriod
  limit : Nat
  additionalPrompt : Option String
deriving DecidableEq, Repr

/-- The configured metrics (`src/constants/metric.ts`). -/
def METRICS : List Metric :=
  [{ name := "Total Revenue (DEX fee + Gas fee)"
     queryId := 4711363
     sectionUrl := "https://dune.com/kaia_foundation/kaia-kpi-full-dashboard#total-revenue-revenue-composition"
     frequency := "week"
     fromHistoricalDate := .relativeSpecific .lastMonth
     limit := 16
     additionalPrompt := some "Calculate total revenue by summing DEX fees and Gas fees for each period. For the latest value, report the combined total from the most recent week. For historical trend analysis: 1) Examine the overall combined revenue trend, noting any significant changes; 2) Compare DEX fees vs Gas fees to identify which component is driving changes; 3) Calculate week-over-week percentage changes to highlight growth or decline patterns." },
   { name := "Kaia Active Weekly Addresses with Over $10 KAIA balance"
     queryId := 4986206
     sectionUrl := "https://dune.com/kaia_foundation/kaia-kpi-full-dashboard#non-zero-balance-addresses"
     frequency := "week"
     fromHistoricalDate := .relativeSpecific .lastMonth
     limit := 8
     additionalPrompt := none },
   { name := "Kaia Weekly Trading Volume"
     queryId := 4966021
     sectionUrl := "https://dune.com/kaia_foundation/2025-kaia-kpi-dashboard#trading-volume"
     frequency := "week"
     fromHistoricalDate := .relativeSpecific .lastMonth
     limit := 8
     additionalPrompt := none },
   { name := "Kaia - TVL(Including Liquid staking TVL)"
     queryId := 4230294
     sectionUrl := "https://dune.com/kaia_foundation/kaia-kpi-full-dashboard#tvl-of-kaiakaia-ecosystem"
     frequency := "date"
     fromHistoricalDate := .relativeSpecific .lastMonth
     limit := 62
     additionalPrompt := none }]

/-- JavaScript template interpolation of a `string | null` value. -/
def interpolate (o : Option String) : String :=
  match o with
  | some s => s
  | none => "null"

/-- `createAnalysisPrompt` (abridged): the fixed English instructions of
the template are shortened, but every data interpolation of the source —
metric name, current ISO date, frequency, formatted historical period,
the step-7 significance criteria, `additionalPrompt || ""`, and the
fetched data (`null` when absent) — appears in source order. -/
def createAnalysisPrompt (today : Int) (metric : Metric) (data : Option String) : String :=
  "\nYou are provided with the latest time-series data for the metric: "
  ++ metric.name
  ++ ". Your task is to analyze this data and provide insights in JSON format.\n"
  ++ "Todays date is " ++ formatDate today ++ ".\n"
  ++ "If the frequency is " ++ metric.frequency ++ "ly and the historical period is "
  ++ formatHistoricalPeriodDescription today metric.fromHistoricalDate
  ++ ", extract all data points within this period.\n"
  ++ "Determine the significance level based on the following criteria:\n"
  ++ "    - LOW: If abs(recent_absolute_change) <= 0.5 * historical_average\n"
  ++ "    - MEDIUM: If 0.5 * historical_average < abs(recent_absolute_change) <= historical_average\n"
  ++ "    - HIGH: If historical_average < abs(recent_absolute_change) <= 2 * historical_average\n"
  ++ "    - CRITICAL: If abs(recent_absolute_change) > 2 * historical_average\n"
  ++ (metric.additionalPrompt.getD "") ++ "\n"
  ++ "Here is the data:\n" ++ interpolate data ++ "\n"

/-- `asyncErrorHandler` (`src/utils/errorHandler.ts`): awaits the wrapped
function; on a rejection it logs the error with its context and then
re-throws it, so on the `Except` model it preserves both outcomes. -/
def asyncErrorHandler {α β ε : Type} (fn : α → Except ε β) : α → Except ε β :=
  fun args =>
    match fn args with
    | .ok b => .ok b
    | .error e => .error e

/-- The external collaborators of one run: the Dune fetch
`(queryId, limit) ↦ string | null` and the Gemini call
`prompt ↦ string | null`, each of which may also throw. -/
structure ExternalWorld where
  getLatestResult : Nat → Nat → Except String (Option String)
  generateContent : String → Except String (Option String)

/-- `processMetric`: fetch the data, build the prompt, call Gemini, parse
the response; wrapped in `asyncErrorHandler`, so a thrown fetch or Gemini
error is logged and re-thrown. -/
def processMetric (world : ExternalWorld) (today : Int) :
    Metric → Except String GeminiParseResult :=
  asyncErrorHandler (fun metric => do
    let data ← world.getLatestResult metric.queryId metric.limit
    let prompt := createAnalysisPrompt today metric data
    let geminiResult ← world.generateContent prompt
    pure (parseGeminiResponse geminiResult metric.name))

/-- `Promise.all`: resolves with the list of results in input order, or
rejects as soon as any input rejects. -/
def promiseAll {ε α : Type} : List (Except ε α) → Except ε (List α)
  | [] => .ok []
  | x :: xs =>
    match x with
    | .error e => .error e
    | .ok a =>
      match promiseAll xs with
      | .error e => .error e
      | .ok rest => .ok (a :: rest)

/-- The body of `main`: process all metrics with `Promise.all` and (on
success) hand the collected results to the Slack sink.  The value is the
batch that reaches `sendGridFormattedSlackMessage`; on `Except.error` the
`await` in `main` has thrown and the sink is never invoked. -/
def mainJob (world : ExternalWorld) (today : Int) :
    Except String (List GeminiParseResult) :=
  asyncErrorHandler (fun _ => promiseAll (METRICS.map (processMetric world today))) ()

/-- The batch delivered to the messaging sink by one run of `main`:
`none` when the run rejected before the send. -/
def mainDeliveredBatch (world : ExternalWorld) (today : Int) :
    Option (List GeminiParseResult) :=
  match mainJob world today with
  | .ok results => some results
  | .error _ => none

/-! ### Startup dispatch (bottom of `src/index.ts`) -/

/-- What happens at module load: which recurring trigger is registered
(schedule with its timezone) and how many immediate executions of `main`
are performed. -/
structure StartupBehavior where
  registeredCron : Option (String × String)
  immediateRuns : Nat
deriving DecidableEq, Repr

/-- The startup dispatch: with a configured `CRON_SCHEDULE` the job is
registered with `cron.schedule` under `TZ` (default `Asia/Singapore`) —
an invalid expression is only logged — and `main` is not called; without
one, `main` is called once immediately. -/
def startupDispatch (cronSchedule : Option String) (tzEnv : Option String) :
    StartupBehavior :=
  match cronSchedule with
  | some schedule => { registeredCron := some (schedule, tzEnv.getD "Asia/Singapore"), immediateRuns := 0 }
  | none => { registeredCron := none, immediateRuns := 1 }

example : daysFromCivil 1970 1 1 = 0 := by decide
example : civilFromDays 0 = (1970, 1, 1) := by decide
example : daysFromCivil 2024 3 15 = 19797 := by decide
example : civilFromDays 19797 = (2024, 3, 15) := by decide
example : getUTCDay 19797 = 5 := by decide
example : formatDate 19797 = "2024-03-15" := by decide
example : daysFromCivil 2024 3 2 = 19784 := by decide
example : formatHistoricalPeriodDescription 19797 (.relativeRange 3 .day)
    = "for dates 2024-03-12 to 2024-03-14" := by decide
example : formatHistoricalPeriodDescription 19784 (.relativeRange 1 .week)
    = "for dates 2024-03-24 to 2024-02-24" := by decide
example : formatHistoricalPeriodDescription 19797 (.relativeRange 1 .week)
    = "for dates 2024-03-03 to 2024-03-09" := by decide
example : formatHistoricalPeriodDescription 19797 (.relativeRange 1 .month)
    = "for month February" := by decide
example : formatHistoricalPeriodDescription 19797 (.specificDate "2024-03-15")
    = "for date 2024-03-15 (today)" := by decide
example : formatHistoricalPeriodDescription 19797 (.specificDate "not-a-date1")
    = "from not-a-date1" := by decide
example : jsonParse "[1, 2]" = some (.arr [.num ⟨1, 0⟩, .num ⟨2, 0⟩]) := rfl
example : jsonParse " \x7b\"a\": -1.5e2, \"b\": [true, null]\x7d " =
    some (.obj [("a", .num ⟨-15, 1⟩), ("b", .arr [.bool true, .null])]) := rfl
example : jsonParse "01" = none := rfl
example : jsonParse "\"x\\n\"" = some (.str "x\n") := rfl
example : jsonParse "[1, 2" = none := rfl
example : cleanGeminiText "```json\n[1, 2]\n```" = "[1, 2]" := rfl
example : parseGeminiResponse (some "```json\n[1, 2]\n```") "m" =
    .parsed (.arr [.num ⟨1, 0⟩, .num ⟨2, 0⟩]) := rfl
example : parseGeminiResponse (some "oops") "m" =
    .parseFailure "Failed to parse JSON for metric m" "oops" "oops" := rfl
example : parseGeminiResponse none "m" =
    .nonStringResult "Received non-string result for metric m" none := rfl

/-! ### C3: the significance rule -/

/-- C3: the significance tier depends only on the ratio of
`|recent_absolute_change|` to a positive `historical_average`
(scale invariance), is monotone in `|recent_absolute_change|` with the
average fixed, and each threshold boundary belongs to the lower tier:
exactly `0.5x` gives LOW, exactly `1x` MEDIUM, exactly `2x` HIGH, and
anything beyond `2x` CRITICAL. -/
theorem significance_thresholds :
    (∀ h c₁ c₂ : ℚ, |c₁| ≤ |c₂| →
        (significanceLevel c₁ h).rank ≤ (significanceLevel c₂ h).rank) ∧
    (∀ h h2 c c2 : ℚ, 0 < h → 0 < h2 → |c| * h2 = |c2| * h →
        significanceLevel c h = significanceLevel c2 h2) ∧
    (∀ h : ℚ, 0 < h →
        significanceLevel (1/2 * h) h = .LOW ∧
        significanceLevel h h = .MEDIUM ∧
        significanceLevel (2 * h) h = .HIGH ∧
        (∀ c : ℚ, 2 * h < |c| → significanceLevel c h = .CRITICAL)) := by
  refine ⟨?_, ?_, ?_⟩
  · intro h c₁ c₂ hle
    unfold significanceLevel
    split_ifs <;> simp_all [Significance.rank] <;> linarith
  · intro h h2 c c2 hh hh2 hcross
    have key : ∀ t : ℚ, (|c| ≤ t * h ↔ |c2| ≤ t * h2) := by
      intro t
      constructor
      · intro hle
        have h1 : |c| * h2 ≤ t * h * h2 := mul_le_mul_of_nonneg_right hle hh2.le
        rw [hcross] at h1
        have h1a : |c2| * h ≤ (t * h2) * h := by linarith
        exact le_of_mul_le_mul_right h1a hh
      · intro hle
        have h1 : |c2| * h ≤ t * h2 * h := mul_le_mul_of_nonneg_right hle hh.le
        rw [← hcross] at h1
        have h1a : |c| * h2 ≤ (t * h) * h2 := by linarith
        exact le_of_mul_le_mul_right h1a hh2
    have k1 := key (1/2)
    have k2 := key 1
    have k3 := key 2
    simp only [one_mul] at k2
    unfold significanceLevel
    simp only [k1, k2, k3]
  · intro h hh
    have habs1 : |1/2 * h| = 1/2 * h := abs_of_pos (by linarith)
    have habs2 : |h| = h := abs_of_pos hh
    have habs3 : |2 * h| = 2 * h := abs_of_pos (by linarith)
    refine ⟨?_, ?_, ?_, ?_⟩
    · unfold significanceLevel; rw [habs1, if_pos le_rfl]
    · unfold significanceLevel; rw [habs2, if_neg (by linarith), if_pos le_rfl]
    · unfold significanceLevel
      rw [habs3, if_neg (by linarith), if_neg (by linarith), if_pos le_rfl]
    · intro c hcr
      have hc0 : 0 ≤ |c| := abs_nonneg c
      unfold significanceLevel
      rw [if_neg (by linarith), if_neg (by linarith), if_neg (by linarith)]

/-- C3 witness: the boundary and monotonicity facts at
`historical_average = 4`. -/
theorem significance_thresholds_witness :
    significanceLevel (1/2 * 4) 4 = .LOW ∧
    significanceLevel 4 4 = .MEDIUM ∧
    significanceLevel (2 * 4) 4 = .HIGH ∧
    significanceLevel 9 4 = .CRITICAL ∧
    (significanceLevel 1 4).rank ≤ (significanceLevel 3 4).rank := by
  have hb := significance_thresholds.2.2 4 (by norm_num)
  refine ⟨hb.1, hb.2.1, hb.2.2.1, hb.2.2.2 9 ?_, significance_thresholds.1 4 1 3 ?_⟩
  · rw [abs_of_pos (by norm_num : (0:ℚ) < 9)]; norm_num
  · rw [abs_of_pos (by norm_num : (0:ℚ) < 1), abs_of_pos (by norm_num : (0:ℚ) < 3)]
    norm_num

/-! ### Helper lemmas -/

theorem setUTCDate_sub (z k : Int) : setUTCDate z (getUTCDate z - k) = z - k := by
  unfold setUTCDate; omega

theorem asyncErrorHandler_eq {α β ε : Type} (fn : α → Except ε β) (a : α) :
    asyncErrorHandler fn a = fn a := by
  unfold asyncErrorHandler; cases fn a <;> rfl

theorem dropWhile_idem {α : Type} (p : α → Bool) (l : List α) :
    (l.dropWhile p).dropWhile p = l.dropWhile p := by
  induction l with
  | nil => rfl
  | cons a t ih =>
    by_cases h : p a = true
    · simp [List.dropWhile_cons, h, ih]
    · simp [List.dropWhile_cons, h]

theorem dropWhile_head_false {α : Type} (p : α → Bool) :
    ∀ (l : List α) (c : α) (r : List α), l.dropWhile p = c :: r → p c = false := by
  intro l
  induction l with
  | nil => intro c r h; exact absurd h (by simp)
  | cons a t ih =>
    intro c r h
    rw [List.dropWhile_cons] at h
    by_cases ha : p a = true
    · rw [if_pos ha] at h; exact ih c r h
    · rw [if_neg ha] at h
      injection h with h1 h2
      subst h1
      simpa using ha

theorem dropWhile_of_head_false {α : Type} (p : α → Bool) (l : List α)
    (h : ∀ c r, l = c :: r → p c = false) : l.dropWhile p = l := by
  cases l with
  | nil => rfl
  | cons a t => rw [List.dropWhile_cons, if_neg (by simp [h a t rfl])]

theorem trimChars_idem (l : List Char) : trimChars (trimChars l) = trimChars l := by
  unfold trimChars
  have ha : (l.dropWhile jsWhitespace).dropWhile jsWhitespace
      = l.dropWhile jsWhitespace := dropWhile_idem _ _
  have hsplit : (l.dropWhile jsWhitespace).reverse.takeWhile jsWhitespace
        ++ (l.dropWhile jsWhitespace).reverse.dropWhile jsWhitespace
      = (l.dropWhile jsWhitespace).reverse :=
    List.takeWhile_append_dropWhile _ _
  set a := l.dropWhile jsWhitespace with hadef
  set r := a.reverse.dropWhile jsWhitespace with hrdef
  have hr : r.dropWhile jsWhitespace = r := dropWhile_idem _ _
  have stepA : r.reverse.dropWhile jsWhitespace = r.reverse := by
    apply dropWhile_of_head_false
    intro c rest hcr
    have haeq : a = r.reverse ++ (a.reverse.takeWhile jsWhitespace).reverse := by
      have h2 := congrArg List.reverse hsplit
      simpa [List.reverse_append] using h2.symm
    rw [hcr] at haeq
    exact dropWhile_head_false jsWhitespace a c
      (rest ++ (a.reverse.takeWhile jsWhitespace).reverse) (ha.trans haeq)
  rw [stepA, List.reverse_reverse, hr]

theorem stripFenceOpen_wrapped (rest : List Char) :
    stripFenceOpen ((fenceOpenChars ++ ['\n']) ++ rest) = rest := by
  unfold stripFenceOpen
  rw [if_pos]
  · have h8 : (8 : Nat) = (fenceOpenChars ++ ['\n']).length := rfl
    rw [h8, List.drop_left]
  · exact List.isPrefixOf_iff_prefix.mpr (List.prefix_append _ _)

theorem stripFenceClose_wrapped (s : List Char) :
    stripFenceClose (s ++ ('\n' :: fenceTicks)) = s := by
  unfold stripFenceClose
  rw [if_pos]
  · have hlen : (s ++ ('\n' :: fenceTicks)).length - 4 = s.length := by
      simp [List.length_append, fenceTicks]
    rw [hlen, List.take_left]
  · exact List.isSuffixOf_iff_suffix.mpr ⟨s, rfl⟩

theorem cleanChars_wrapped (s : List Char) :
    cleanChars ((fenceOpenChars ++ ['\n']) ++ s ++ ('\n' :: fenceTicks)) = trimChars s := by
  unfold cleanChars
  rw [List.append_assoc, stripFenceOpen_wrapped, stripFenceClose_wrapped]

theorem promiseAll_ok_of_all_ok {ε α : Type} :
    ∀ (l : List (Except ε α)), (∀ x ∈ l, ∃ a, x = .ok a) →
      ∃ out, promiseAll l = .ok out ∧ l = out.map Except.ok := by
  intro l
  induction l with
  | nil => intro _; exact ⟨[], rfl, rfl⟩
  | cons x xs ih =>
    intro h
    obtain ⟨a, ha⟩ := h x (List.mem_cons_self x xs)
    obtain ⟨out, hout, hmap⟩ := ih (fun y hy => h y (List.mem_cons_of_mem x hy))
    subst ha
    exact ⟨a :: out, by simp [promiseAll, hout], by simp [hmap]⟩

theorem promiseAll_ok_members {ε α : Type} :
    ∀ (l : List (Except ε α)) (out : List α), promiseAll l = .ok out →
      ∀ x ∈ l, ∃ a, x = .ok a := by
  intro l
  induction l with
  | nil => intro out _ x hx; exact absurd hx (List.not_mem_nil x)
  | cons y ys ih =>
    intro out h x hx
    cases y with
    | error e => simp [promiseAll] at h
    | ok a =>
      simp only [promiseAll] at h
      cases hps : promiseAll ys with
      | error e => rw [hps] at h; exact Except.noConfusion h
      | ok rest =>
        rw [hps] at h
        rcases List.mem_cons.mp hx with hx1 | hx2
        · exact ⟨a, hx1⟩
        · exact ih rest hps x hx2

/-- One run's external collaborators in which the first metric's Dune
fetch throws while everything else resolves. -/
def cexWorld : ExternalWorld :=
  ⟨fun queryId _ =>
      if queryId = 4711363 then .error "Dune fetch failed" else .ok (some "1\n2"),
   fun _ => .ok (some "\x7b\"significance\": \"LOW\"\x7d")⟩

/-- External collaborators in which every call resolves. -/
def okWorld : ExternalWorld :=
  ⟨fun _ _ => .ok (some "1\n2"),
   fun _ => .ok (some "\x7b\"significance\": \"LOW\"\x7d")⟩

/-! ### C1: one thrown metric error and the batch -/

/-- C1 (counterexample): when the first metric's data fetch throws (and
the other metrics would succeed), `asyncErrorHandler` re-throws, the
`Promise.all` of `main` rejects, and no batch at all is handed to the
messaging sink — rather than a report with an error record for the
failing metric. -/
theorem mainJob_fetchThrow_cex :
    processMetric cexWorld 19797 (METRICS.get ⟨0, by decide⟩) = .error "Dune fetch failed" ∧
    (∃ r, processMetric cexWorld 19797 (METRICS.get ⟨1, by decide⟩) = .ok r) ∧
    mainJob cexWorld 19797 = .error "Dune fetch failed" ∧
    mainDeliveredBatch cexWorld 19797 = none := by
  exact ⟨rfl, ⟨_, rfl⟩, rfl, rfl⟩

/-- C1 (amended): if any configured metric's processing throws, the whole
run rejects and no batch is delivered; when every metric's processing
resolves, the delivered batch consists of exactly the per-metric results
in configuration order (Gemini error records included — parse failures
and non-string results resolve rather than throw). -/
theorem mainJob_spec (world : ExternalWorld) (today : Int) :
    ((∃ m ∈ METRICS, ∃ e, processMetric world today m = .error e) →
        ∃ e, mainJob world today = .error e) ∧
    ((∀ m ∈ METRICS, ∃ r, processMetric world today m = .ok r) →
        ∃ batch, mainJob world today = .ok batch ∧
          METRICS.map (processMetric world today) = batch.map Except.ok) := by
  constructor
  · rintro ⟨m, hm, e, he⟩
    simp only [mainJob, asyncErrorHandler_eq]
    cases hps : promiseAll (METRICS.map (processMetric world today)) with
    | error e2 => exact ⟨e2, rfl⟩
    | ok out =>
      exfalso
      obtain ⟨a, ha⟩ := promiseAll_ok_members _ out hps (processMetric world today m)
        (List.mem_map_of_mem _ hm)
      rw [he] at ha
      exact Except.noConfusion ha
  · intro hall
    obtain ⟨out, hout, hmap⟩ :=
      promiseAll_ok_of_all_ok (METRICS.map (processMetric world today))
        (by
          rintro x hx
          obtain ⟨m, hm, rfl⟩ := List.mem_map.mp hx
          exact hall m hm)
    exact ⟨out, by simp only [mainJob, asyncErrorHandler_eq]; exact hout, hmap⟩

/-- C1 witness: with all calls resolving, a batch with one entry per
configured metric, in configuration order, reaches the sink. -/
theorem mainJob_spec_witness :
    ∃ batch, mainJob okWorld 19797 = .ok batch ∧
      METRICS.map (processMetric okWorld 19797) = batch.map Except.ok :=
  (mainJob_spec okWorld 19797).2 (fun _ _ => ⟨_, rfl⟩)

/-! ### C7: totality of the response parser -/

/-- C7: the response parser returns a value for every input.  A
non-string input (the only one in the service's result type is `null`)
yields the non-string error record with the raw input preserved verbatim
in `rawResult`; a string input yields either the parsed record or the
parse-failure record carrying the raw text, the cleaned text and (in the
logged reason) the failure. -/
theorem parseGeminiResponse_spec (geminiResult : Option String) (metricName : String) :
    (geminiResult = none →
        parseGeminiResponse geminiResult metricName
          = .nonStringResult ("Received non-string result for metric " ++ metricName)
              geminiResult) ∧
    (∀ s, geminiResult = some s →
        (∃ v, jsonParse (cleanGeminiText s) = some v ∧
            parseGeminiResponse geminiResult metricName = .parsed v) ∨
        (jsonParse (cleanGeminiText s) = none ∧
            parseGeminiResponse geminiResult metricName
              = .parseFailure ("Failed to parse JSON for metric " ++ metricName) s
                  (cleanGeminiText s))) := by
  constructor
  · intro h; subst h; rfl
  · intro s h; subst h
    cases hj : jsonParse (cleanGeminiText s) with
    | some v => exact Or.inl ⟨v, rfl, by simp [parseGeminiResponse, hj]⟩
    | none => exact Or.inr ⟨rfl, by simp [parseGeminiResponse, hj]⟩

/-- C7 witness: the `null` response of end-to-end scenario 4, and a
non-JSON string. -/
theorem parseGeminiResponse_spec_witness :
    parseGeminiResponse none "m"
      = .nonStringResult ("Received non-string result for metric " ++ "m") none ∧
    ((∃ v, jsonParse (cleanGeminiText "oops") = some v ∧
        parseGeminiResponse (some "oops") "m" = .parsed v) ∨
     (jsonParse (cleanGeminiText "oops") = none ∧
        parseGeminiResponse (some "oops") "m"
          = .parseFailure ("Failed to parse JSON for metric " ++ "m") "oops"
              (cleanGeminiText "oops"))) :=
  ⟨(parseGeminiResponse_spec none "m").1 rfl,
   (parseGeminiResponse_spec (some "oops") "m").2 "oops" rfl⟩

/-! ### C8: the code-fence round trip -/

/-- C8: for every string `s` accepted by `JSON.parse`, feeding the parser
`s` wrapped in a Markdown ```` ```json ```` code fence yields exactly the
object parsed from the unwrapped `s`. -/
theorem fencedJson_roundTrip (metricName s : String) (v : JsonValue)
    (h : jsonParse s = some v) :
    parseGeminiResponse (some ("```json\n" ++ s ++ "\n```")) metricName = .parsed v := by
  have hdata : ("```json\n" ++ s ++ "\n```").data
      = (fenceOpenChars ++ ['\n']) ++ s.data ++ ('\n' :: fenceTicks) := by
    rw [String.data_append, String.data_append]
    rfl
  have hclean : cleanGeminiText ("```json\n" ++ s ++ "\n```")
      = String.mk (trimChars s.data) := by
    unfold cleanGeminiText
    rw [hdata, cleanChars_wrapped]
  have hparse : jsonParse (String.mk (trimChars s.data)) = jsonParse s := by
    unfold jsonParse
    simp only [trimChars_idem]
  simp [parseGeminiResponse, hclean, hparse, h]

/-- C8 witness: the fenced array `[1, 2]`. -/
theorem fencedJson_roundTrip_witness :
    jsonParse "[1, 2]" = some (.arr [.num ⟨1, 0⟩, .num ⟨2, 0⟩]) ∧
    parseGeminiResponse (some ("```json\n" ++ "[1, 2]" ++ "\n```")) "m"
      = .parsed (.arr [.num ⟨1, 0⟩, .num ⟨2, 0⟩]) :=
  ⟨rfl, fencedJson_roundTrip "m" "[1, 2]" _ rfl⟩

/-! ### C5: relative day ranges -/

/-- C5: for a relative range of `count ≥ 1` days at any reference date
`today`, the formatter yields exactly the range from `today - count` to
`today - 1`. -/
theorem relativeDayRange_correct (today count : Int) (h : 1 ≤ count) :
    formatHistoricalPeriodDescription today (.relativeRange count .day)
      = "for dates " ++ formatDate (today - count) ++ " to " ++ formatDate (today - 1) := by
  have hc : ¬ count ≤ 0 := by omega
  simp only [formatHistoricalPeriodDescription, hc, if_false, setUTCDate_sub]

/-- C5 witness: count 3 at `today` = 2024-03-15 (epoch day 19797) gives
`for dates 2024-03-12 to 2024-03-14`. -/
theorem relativeDayRange_correct_witness :
    daysFromCivil 2024 3 15 = 19797 ∧
    formatHistoricalPeriodDescription 19797 (.relativeRange 3 .day)
      = "for dates 2024-03-12 to 2024-03-14" := by
  refine ⟨by decide, ?_⟩
  rw [relativeDayRange_correct 19797 3 (by decide)]
  decide

/-! ### C6: nonpositive counts -/

/-- C6: every relative range with `count ≤ 0`, for every unit and every
reference date, produces the `Invalid range` sentinel. -/
theorem invalidRange_sentinel (today count : Int) (unit : RangeUnit) (h : count ≤ 0) :
    formatHistoricalPeriodDescription today (.relativeRange count unit) = "Invalid range" := by
  simp only [formatHistoricalPeriodDescription, h, if_true]

/-- C6 witness: count 0, unit day, `today` = 19797. -/
theorem invalidRange_sentinel_witness :
    formatHistoricalPeriodDescription 19797 (.relativeRange 0 .day) = "Invalid range" :=
  invalidRange_sentinel 19797 0 .day (by decide)

/-! ### C4: the week branch across a month boundary -/

/-- C4 (bug evidence): at `today` = 2024-03-02 (a Saturday, epoch day
19784) with `\x7b week, count = 1 \x7d`, the most recent completed week is
Sunday 2024-02-18 – Saturday 2024-02-24, but the formatter answers
`for dates 2024-03-24 to 2024-02-24`: the start lies after the end,
because `startDate.setUTCDate(endDate.getUTCDate() - …)` interprets the
day-of-month of `endDate` (taken in February) relative to the month of
`today` (March). -/
theorem weekRange_monthBoundary_bug :
    daysFromCivil 2024 3 2 = 19784 ∧ getUTCDay 19784 = 6 ∧
    formatHistoricalPeriodDescription 19784 (.relativeRange 1 .week)
      = "for dates 2024-03-24 to 2024-02-24" ∧
    formatHistoricalPeriodDescription 19784 (.relativeRange 1 .week)
      ≠ "for dates " ++ formatDate (daysFromCivil 2024 2 18)
          ++ " to " ++ formatDate (daysFromCivil 2024 2 24) := by
  refine ⟨by decide, by decide, by decide, by decide⟩

/-! ### C10: totality and invalid specific dates -/

/-- C10: the formatter is total on the `HistoricalPeriod` union, and a
`specificDate` whose string does not denote a valid calendar date is
rendered as the plain `from s` (the invalid-date comparisons are false),
with no today/yesterday annotation. -/
theorem formatter_total_invalidDate (today : Int) (s : String) :
    (∀ p : HistoricalPeriod, ∃ out : String,
        formatHistoricalPeriodDescription today p = out) ∧
    (parseDateString s = none →
        formatHistoricalPeriodDescription today (.specificDate s) = "from " ++ s) := by
  refine ⟨fun p => ⟨_, rfl⟩, fun h => ?_⟩
  simp only [formatHistoricalPeriodDescription, h]

/-- C10 witness: the unparseable string `not-a-date1` at `today` = 19797. -/
theorem formatter_total_invalidDate_witness :
    formatHistoricalPeriodDescription 19797 (.specificDate "not-a-date1")
      = "from " ++ "not-a-date1" :=
  (formatter_total_invalidDate 19797 "not-a-date1").2 (by decide)

/-! ### C2: startup dispatch -/

/-- C2 (counterexample): with a configured schedule the program registers
the trigger but performs zero immediate executions, not one. -/
theorem startupDispatch_cex :
    (startupDispatch (some "0 10 * * 1") none).immediateRuns = 0 ∧
    (startupDispatch (some "0 10 * * 1") none).registeredCron
      = some ("0 10 * * 1", "Asia/Singapore") ∧
    (startupDispatch (some "0 10 * * 1") none).immediateRuns ≠ 1 := by
  refine ⟨rfl, rfl, by decide⟩

/-- C2 (amended): with no schedule the job runs exactly once and no
trigger is registered; with a schedule only the recurring trigger (under
the configured or default timezone) is registered and no immediate
execution is performed. -/
theorem startupDispatch_spec (cronSchedule tzEnv : Option String) :
    (cronSchedule = none → startupDispatch cronSchedule tzEnv = ⟨none, 1⟩) ∧
    (∀ s, cronSchedule = some s →
        startupDispatch cronSchedule tzEnv = ⟨some (s, tzEnv.getD "Asia/Singapore"), 0⟩) := by
  refine ⟨fun h => by subst h; rfl, fun s h => by subst h; rfl⟩

/-- C2 witness: no schedule configured. -/
theorem startupDispatch_spec_witness :
    startupDispatch none none = ⟨none, 1⟩ :=
  (startupDispatch_spec none none).1 rfl

/-! ### C9: the empty batch -/

/-- C9 (bug evidence): with an empty batch the earlier sink variant sends
nothing, but `sendGridFormattedSlackMessage` — whose documentation says it
will not send a message when no metrics data is provided — still sends a
six-block message of structural placeholders (date header, divider, table
header, table column headers, divider, grid header), because its guard
`allBlocks.length > 2` is already satisfied by the placeholders. -/
theorem emptyBatch_stillSends (nowText : String) :
    sendFormattedSlackMessage nowText [] = none ∧
    sendGridFormattedSlackMessage nowText []
      = some ([SlackBlock.header ("Date: " ++ nowText), SlackBlock.divider]
          ++ createMetricsTable [] ++ createMetricsGrid []) ∧
    (createMetricsTable [] ++ createMetricsGrid []).length = 4 := by
  refine ⟨?_, ?_, rfl⟩
  · simp [sendFormattedSlackMessage]
  · simp [sendGridFormattedSlackMessage, createMetricsTable, createMetricsGrid]

end KaiaAnalytics
